import Mathlib

/-!
Verification development for the `libra` verifying ledger client
(`client/cli/src/libra_client.rs`).

The client talks to two external services (a legacy binary RPC channel used
for verified ledger reads, and a JSON-RPC channel used for transaction
submission) and consumes an external cryptographic verification engine.
Those collaborators are modelled as per-attempt oracles: a function from the
attempt index to the outcome the external world produces for that attempt.
Everything the client itself does — envelope construction and validation,
retry classification and bounded retry loops, trusted-state ratcheting,
response-item unwrapping — is translated directly from the source.

Machine integers (`u64`) are modelled as `Nat`: none of the modelled code
performs arithmetic that can overflow (the only arithmetic is `try_cnt + 1`
bounded by 2 and `sequence_number + 1`).
-/

/-- Timeout for each JSON-RPC HTTP request, `JSON_RPC_TIMEOUT_MS` in the source. -/
def JSON_RPC_TIMEOUT_MS : Nat := 5000

/-- Retry cap shared by both channels, `MAX_GRPC_RETRY_COUNT` in the source. -/
def MAX_GRPC_RETRY_COUNT : Nat := 2

/-- The status codes of `tonic::Status` (the gRPC transport error carried by
errors from the binary RPC channel). -/
inductive TonicCode : Type where
  | Ok
  | Cancelled
  | Unknown
  | InvalidArgument
  | DeadlineExceeded
  | NotFound
  | AlreadyExists
  | PermissionDenied
  | ResourceExhausted
  | FailedPrecondition
  | Aborted
  | OutOfRange
  | Unimplemented
  | Internal
  | Unavailable
  | DataLoss
  | Unauthenticated
deriving DecidableEq, Repr, BEq

/-- A JSON value, as produced by parsing a JSON-RPC response body
(`serde_json::Value`; numbers restricted to the naturals, which covers the
`u64` request ids the client compares against). -/
inductive Json : Type where
  | null : Json
  | bool (b : Bool) : Json
  | num (n : Nat) : Json
  | str (s : String) : Json
  | arr (items : List Json) : Json
  | obj (fields : List (String × Json)) : Json
deriving Repr

/-- Key lookup in a JSON object field list (`serde_json::Map::get`). -/
def Json.lookupField : List (String × Json) → String → Option Json
  | [], _ => none
  | (k, v) :: rest, key => if k = key then some v else Json.lookupField rest key

/-- The source's `data.get(key)`: `serde_json::Value::get` returns the field
when the value is an object holding the key, and `None` otherwise. -/
def Json.get : Json → String → Option Json
  | Json.obj fields, key => Json.lookupField fields key
  | _, _ => none

/-- The source check `json_rpc_protocol == Some(&Value::String("2.0"))`. -/
def Json.isProtocolV2 : Option Json → Bool
  | some (Json.str s) => s == "2.0"
  | _ => false

/-- The source check `response_id == Some(&json!(id))`: the response id field
must be present and be exactly the number sent. -/
def Json.isEchoedId : Option Json → Nat → Bool
  | some (Json.num n), id => n == id
  | _, _ => false

/-- The source check `result == Value::Null` in `submit_transaction`. -/
def Json.isNull : Json → Bool
  | Json.null => true
  | _ => false

/-- An error from the blocking HTTP send (`reqwest` transport failure or
timeout), opaque to the client. -/
structure SendError : Type where
  msg : String
deriving DecidableEq, Repr

/-- An HTTP response as the JSON-RPC channel observes it: a status code and
the result of parsing the body as JSON (`none` when `response.json()` fails). -/
structure HttpResponse : Type where
  status : Nat
  body : Option Json
deriving Repr

/-- The distinct failure modes of `JsonRpcClient::send_libra_request`
(each `bail!` / `ensure!` / `?` site in the source). -/
inductive RpcError : Type where
  | sendFailed (e : SendError)
  | serverStatus (status : Nat)
  | parseFailed
  | wrongProtocol (got : Option Json)
  | idMismatch (got : Option Json) (expected : Nat)
  | rpcError (contents : Json)
  | noResult
deriving Repr

/-- Whether an `Except` is an error (`Result::is_err`). -/
def exceptIsErr {ε α : Type} : Except ε α → Bool
  | Except.error _ => true
  | Except.ok _ => false

/-- The retry loop body of `JsonRpcClient::send_with_retry`. The oracle
`send_oracle i` is the outcome of the i-th HTTP send of the identical
request. `fuel` is the remaining retry budget, kept equal to
`MAX_GRPC_RETRY_COUNT - try_cnt`, so the `fuel = 0` return coincides with
the loop guard `try_cnt < MAX_GRPC_RETRY_COUNT` turning false. The second
component counts the sends performed. -/
def send_with_retry_loop (send_oracle : Nat → Except SendError HttpResponse)
    (fuel try_cnt : Nat) (response : Except SendError HttpResponse) :
    Except SendError HttpResponse × Nat :=
  match fuel with
  | 0 => (response, try_cnt + 1)
  | fuel' + 1 =>
    if try_cnt < MAX_GRPC_RETRY_COUNT && exceptIsErr response then
      send_with_retry_loop send_oracle fuel' (try_cnt + 1) (send_oracle (try_cnt + 1))
    else (response, try_cnt + 1)

/-- `JsonRpcClient::send_with_retry`: one initial send, then up to
`MAX_GRPC_RETRY_COUNT` resends while the result is an error. Returns the
final result and the number of sends performed. -/
def send_with_retry (send_oracle : Nat → Except SendError HttpResponse) :
    Except SendError HttpResponse × Nat :=
  send_with_retry_loop send_oracle MAX_GRPC_RETRY_COUNT 0 (send_oracle 0)

/-- `JsonRpcClient::send_libra_request`: send with retry, then validate the
HTTP status (`error_for_status` fails on 4xx and 5xx), parse the body, check
the `jsonrpc` protocol tag, check the echoed `id`, and extract either the
`error` payload (failing with its contents) or the `result` payload.
`id` is the randomly generated request id. -/
def send_libra_request (id : Nat)
    (send_oracle : Nat → Except SendError HttpResponse) : Except RpcError Json :=
  match (send_with_retry send_oracle).1 with
  | Except.error e => Except.error (RpcError.sendFailed e)
  | Except.ok response =>
    if 400 ≤ response.status && response.status < 600 then
      Except.error (RpcError.serverStatus response.status)
    else
      match response.body with
      | none => Except.error RpcError.parseFailed
      | some data =>
        if Json.isProtocolV2 (Json.get data "jsonrpc") then
          if Json.isEchoedId (Json.get data "id") id then
            match Json.get data "error" with
            | some err => Except.error (RpcError.rpcError err)
            | none =>
              match Json.get data "result" with
              | some result => Except.ok result
              | none => Except.error RpcError.noResult
          else Except.error (RpcError.idMismatch (Json.get data "id") id)
        else Except.error (RpcError.wrongProtocol (Json.get data "jsonrpc"))

/-- The failure modes of `LibraClient::submit_transaction`. -/
inductive SubmitError : Type where
  | unexpectedResult (r : Json)
  | rpcFailed (e : RpcError)
deriving Repr

/-- `LibraClient::submit_transaction`, given the sender record's current
sequence number (when one is supplied) and the JSON-RPC channel oracle.
Returns the call result and the sender record's sequence number afterwards:
the number is bumped by one exactly when the call succeeds, and success
requires the `result` payload to be `null`. -/
def submit_transaction (sender_sequence_number : Option Nat) (id : Nat)
    (send_oracle : Nat → Except SendError HttpResponse) :
    Except SubmitError Unit × Option Nat :=
  match send_libra_request id send_oracle with
  | Except.ok result =>
    if Json.isNull result then
      (Except.ok (), sender_sequence_number.map (· + 1))
    else
      (Except.error (SubmitError.unexpectedResult result), sender_sequence_number)
  | Except.error e =>
    (Except.error (SubmitError.rpcFailed e), sender_sequence_number)

/-- An account address (opaque to the modelled code). -/
structure AccountAddress : Type where
  addr : Nat
deriving DecidableEq, Repr

/-- An access path for event queries (opaque to the modelled code). -/
structure AccessPath : Type where
  path : Nat
deriving DecidableEq, Repr

/-- A trust anchor used to bootstrap the trusted state. -/
structure Waypoint : Type where
  version : Nat
deriving DecidableEq, Repr

/-- The client's verified belief about the ledger, abstracted to the one
observable the client code reads from it: `latest_version()`. The value is
immutable and replaced wholesale on successful verification. -/
structure TrustedState : Type where
  version : Nat
deriving DecidableEq, Repr

/-- `TrustedState::from_waypoint`: initial trust anchored at the waypoint. -/
def TrustedState.from_waypoint (w : Waypoint) : TrustedState :=
  { version := w.version }

/-- The source constructor `new_trust_any_genesis_WARNING_UNSAFE` (renamed:
initial verification is essentially empty, trusting from version 0). -/
def TrustedState.new_trust_any_genesis_unchecked : TrustedState :=
  { version := 0 }

/-- A ledger info with signatures, abstracted to the fields the client reads
(`ledger_info().version()` and `ledger_info().epoch()`). -/
structure LedgerInfoWithSignatures : Type where
  version : Nat
  epoch : Nat
deriving DecidableEq, Repr

/-- The outcome of successfully verifying one response against the current
trusted state (`TrustedStateChange`): either a same-epoch version advance or
an epoch change. The epoch variant carries the epoch-change ledger info and
a description of the validator set that becomes effective (the latter is
used by the source only for logging). -/
inductive TrustedStateChange : Type where
  | Epoch (new_state : TrustedState)
      (latest_epoch_change_li : LedgerInfoWithSignatures)
      (latest_validator_set : String)
  | Version (new_state : TrustedState)
deriving DecidableEq, Repr

/-- The new trusted state carried by either variant. -/
def TrustedStateChange.new_state : TrustedStateChange → TrustedState
  | TrustedStateChange.Epoch ns _ _ => ns
  | TrustedStateChange.Version ns => ns

/-- A transaction, opaque to the modelled code. -/
structure Transaction : Type where
  payload : Nat
deriving DecidableEq, Repr

/-- A contract event, opaque to the modelled code. -/
structure ContractEvent : Type where
  data : Nat
deriving DecidableEq, Repr

/-- An event together with its proof, opaque to the modelled code. -/
structure EventWithProof : Type where
  event : ContractEvent
deriving DecidableEq, Repr

/-- An account resource, abstracted to the field the client reads
(`sequence_number()`). -/
structure AccountResource : Type where
  sequence_number : Nat
deriving DecidableEq, Repr

/-- An account state blob. `AccountResource::try_from(&blob)` is external
decoding (libra-types, not under src/); it is modelled by the field
`account_resource`, with `none` meaning the decode fails. -/
structure AccountStateBlob : Type where
  account_resource : Option AccountResource
deriving DecidableEq, Repr

/-- An account state with proof, abstracted to the field the client reads
(`blob`). -/
structure AccountStateWithProof : Type where
  blob : Option AccountStateBlob
deriving DecidableEq, Repr

/-- A transaction with proof, abstracted to the fields the client reads
(`transaction` and `events`). -/
structure TransactionWithProof : Type where
  transaction : Transaction
  events : Option (List ContractEvent)
deriving DecidableEq, Repr

/-- A response item (`ResponseItem`), one variant per request-item kind. -/
inductive ResponseItem : Type where
  | GetAccountState (account_state_with_proof : AccountStateWithProof)
  | GetAccountTransactionBySequenceNumber
      (txn_with_proof : Option TransactionWithProof)
      (proof_of_current_sequence_number : Option AccountStateWithProof)
  | GetTransactions (transactions : List Transaction)
      (events : Option (List (List ContractEvent)))
  | GetEventsByEventAccessPath (events_with_proof : List EventWithProof)
      (proof_of_latest_event : AccountStateWithProof)
deriving DecidableEq, Repr

/-- `UpdateToLatestLedgerResponse`, abstracted to the fields the client
reads: the per-item results and the responder's ledger info certificate. -/
structure UpdateToLatestLedgerResponse : Type where
  response_items : List ResponseItem
  ledger_info_with_sigs : LedgerInfoWithSignatures
deriving DecidableEq, Repr

/-- An error from the read path (`anyhow::Error` in the source), classified
by which site produced it. Only the `grpc` kind downcasts to a
`tonic::Status` (the binary RPC channel surfaces transport failures as
`tonic::Status` values; decode, verification and protocol errors are plain
`anyhow` errors and do not downcast). -/
inductive ClientError : Type where
  | grpc (code : TonicCode)
  | decode (msg : String)
  | verify (msg : String)
  | protocol (msg : String)
deriving DecidableEq, Repr

/-- `error.downcast_ref::<tonic::Status>()` on a read-path error. -/
def ClientError.downcast_tonic : ClientError → Option TonicCode
  | ClientError.grpc code => some code
  | _ => none

/-- The outcome the external world produces for one attempt of
`get_with_proof`: the transport call `update_to_latest_ledger` may fail with
a `tonic::Status`, the proto conversion `try_from` may fail, the external
verification engine `resp.verify(trusted_state, req)` may fail, or
verification succeeds with a `TrustedStateChange` for a decoded response. -/
inductive CallOutcome : Type where
  | transportErr (code : TonicCode)
  | decodeErr (msg : String)
  | verifyErr (msg : String)
  | verified (change : TrustedStateChange) (resp : UpdateToLatestLedgerResponse)
deriving DecidableEq, Repr

/-- The mutable state of a `LibraClient`: the latest verified chain state
and the most recent epoch change ledger info. -/
structure ClientState : Type where
  trusted_state : TrustedState
  latest_epoch_change_li : Option LedgerInfoWithSignatures
deriving DecidableEq, Repr

/-- `LibraClient::new`: anchored trusted state when a waypoint is supplied,
the unsafe trust-any-genesis state otherwise; no epoch change seen yet. -/
def LibraClient.new (waypoint : Option Waypoint) : ClientState :=
  { trusted_state :=
      match waypoint with
      | some w => TrustedState.from_waypoint w
      | none => TrustedState.new_trust_any_genesis_unchecked
    latest_epoch_change_li := none }

/-- `LibraClient::get_with_proof` for one attempt whose external outcome is
`outcome`: on transport, decode or verification failure the error propagates
with the client state untouched; on successful verification the state is
updated according to the `TrustedStateChange` variant — `Epoch` replaces
both the trusted state and the stored epoch change ledger info, `Version`
replaces only the trusted state. -/
def get_with_proof (s : ClientState) (outcome : CallOutcome) :
    ClientState × Except ClientError UpdateToLatestLedgerResponse :=
  match outcome with
  | CallOutcome.transportErr code => (s, Except.error (ClientError.grpc code))
  | CallOutcome.decodeErr msg => (s, Except.error (ClientError.decode msg))
  | CallOutcome.verifyErr msg => (s, Except.error (ClientError.verify msg))
  | CallOutcome.verified change resp =>
    match change with
    | TrustedStateChange.Epoch new_state latest_epoch_change_li _latest_validator_set =>
      ({ trusted_state := new_state,
         latest_epoch_change_li := some latest_epoch_change_li }, Except.ok resp)
    | TrustedStateChange.Version new_state =>
      ({ s with trusted_state := new_state }, Except.ok resp)

/-- `LibraClient::need_to_retry`: retry only when the attempt count is below
the cap and the error downcasts to a `tonic::Status` whose code is
`Unavailable` or `Unknown`. -/
def need_to_retry {α : Type} (try_cnt : Nat) (ret : Except ClientError α) : Bool :=
  if MAX_GRPC_RETRY_COUNT ≤ try_cnt then
    false
  else
    match ret with
    | Except.error error =>
      match error.downcast_tonic with
      | some grpc_error => grpc_error == TonicCode.Unavailable || grpc_error == TonicCode.Unknown
      | none => false
    | Except.ok _ => false

/-- The retry loop body of `LibraClient::get_with_proof_sync`. The oracle
`env i` is the external outcome of the i-th full build-send-verify attempt.
`fuel` is the remaining retry budget, kept equal to
`MAX_GRPC_RETRY_COUNT - try_cnt`, so the `fuel = 0` return coincides with
the `try_cnt < MAX_GRPC_RETRY_COUNT` test inside `need_to_retry` turning
false. The third component counts the attempts performed. -/
def get_with_proof_sync_loop (env : Nat → CallOutcome) (fuel try_cnt : Nat)
    (s : ClientState) (resp : Except ClientError UpdateToLatestLedgerResponse) :
    ClientState × Except ClientError UpdateToLatestLedgerResponse × Nat :=
  match fuel with
  | 0 => (s, resp, try_cnt + 1)
  | fuel' + 1 =>
    if need_to_retry try_cnt resp then
      let step := get_with_proof s (env (try_cnt + 1))
      get_with_proof_sync_loop env fuel' (try_cnt + 1) step.1 step.2
    else (s, resp, try_cnt + 1)

/-- `LibraClient::get_with_proof_sync`: one initial attempt, then retries
while `need_to_retry` holds. Returns the final client state, the final
result, and the number of full build-send-verify attempts performed. -/
def get_with_proof_sync (s : ClientState) (env : Nat → CallOutcome) :
    ClientState × Except ClientError UpdateToLatestLedgerResponse × Nat :=
  let first := get_with_proof s (env 0)
  get_with_proof_sync_loop env MAX_GRPC_RETRY_COUNT 0 first.1 first.2

/-- Modelled from the spec: `ResponseItem::into_get_account_state_response`
(libra-types, not under src/) unwraps the `GetAccountState` variant;
receiving any other variant is a fail-fast protocol error. -/
def ResponseItem.into_get_account_state_response :
    ResponseItem → Except ClientError AccountStateWithProof
  | ResponseItem.GetAccountState account_state_with_proof =>
    Except.ok account_state_with_proof
  | _ => Except.error (ClientError.protocol "incorrect response item variant")

/-- Modelled from the spec:
`ResponseItem::into_get_account_txn_by_seq_num_response` (libra-types, not
under src/) unwraps the `GetAccountTransactionBySequenceNumber` variant;
receiving any other variant is a fail-fast protocol error. -/
def ResponseItem.into_get_account_txn_by_seq_num_response :
    ResponseItem →
    Except ClientError (Option TransactionWithProof × Option AccountStateWithProof)
  | ResponseItem.GetAccountTransactionBySequenceNumber txn_with_proof proof =>
    Except.ok (txn_with_proof, proof)
  | _ => Except.error (ClientError.protocol "incorrect response item variant")

/-- Modelled from the spec: `ResponseItem::into_get_transactions_response`
(libra-types, not under src/) unwraps the `GetTransactions` variant;
receiving any other variant is a fail-fast protocol error. -/
def ResponseItem.into_get_transactions_response :
    ResponseItem →
    Except ClientError (List Transaction × Option (List (List ContractEvent)))
  | ResponseItem.GetTransactions transactions events => Except.ok (transactions, events)
  | _ => Except.error (ClientError.protocol "incorrect response item variant")

/-- The outcome of one client read operation as observed by the caller: a
returned value, a returned error, or a thread panic (the latter produced by
`Vec::remove(0)` on an empty vector and by `itertools::zip_eq` on lists of
different lengths, which abort instead of returning). -/
inductive OpResult (α : Type) : Type where
  | ok (a : α)
  | err (e : ClientError)
  | panic
deriving Repr

/-- `itertools::zip_eq`: zip two lists, panicking (modelled as `none`) when
their lengths differ. -/
def zip_eq {α β : Type} : List α → List β → Option (List (α × β))
  | [], [] => some []
  | a :: as_, b :: bs =>
    match zip_eq as_ bs with
    | some rest => some ((a, b) :: rest)
    | none => none
  | _, _ => none

/-- `LibraClient::get_account_blob`: one `GetAccountState` request through the
retried read path, then `response_items.remove(0)` (a panic when the item
list is empty) followed by the variant unwrap. On success, pairs the blob
with the version of the ledger info certifying it. -/
def get_account_blob (s : ClientState) (_address : AccountAddress)
    (env : Nat → CallOutcome) :
    ClientState × OpResult (Option AccountStateBlob × Nat) :=
  let r := get_with_proof_sync s env
  match r.2.1 with
  | Except.error e => (r.1, OpResult.err e)
  | Except.ok response =>
    match response.response_items with
    | [] => (r.1, OpResult.panic)
    | item :: _ =>
      match item.into_get_account_state_response with
      | Except.error e => (r.1, OpResult.err e)
      | Except.ok account_state_with_proof =>
        (r.1, OpResult.ok
          (account_state_with_proof.blob, response.ledger_info_with_sigs.version))

/-- `LibraClient::get_sequence_number`: the account blob fetch, then either
0 when no blob exists or the decoded account resource's sequence number
(`AccountResource::try_from`, an external decode modelled by the blob's
`account_resource` field). -/
def get_sequence_number (s : ClientState) (address : AccountAddress)
    (env : Nat → CallOutcome) : ClientState × OpResult Nat :=
  match get_account_blob s address env with
  | (s1, OpResult.ok (some blob, _version)) =>
    match blob.account_resource with
    | some resource => (s1, OpResult.ok resource.sequence_number)
    | none => (s1, OpResult.err (ClientError.decode "AccountResource try_from failed"))
  | (s1, OpResult.ok (none, _version)) => (s1, OpResult.ok 0)
  | (s1, OpResult.err e) => (s1, OpResult.err e)
  | (s1, OpResult.panic) => (s1, OpResult.panic)

/-- `LibraClient::get_txn_by_acc_seq`: one
`GetAccountTransactionBySequenceNumber` request through the retried read
path, then `response_items.remove(0)` (a panic when the item list is empty)
followed by the variant unwrap; the optional transaction-with-proof is
mapped to its transaction and events. -/
def get_txn_by_acc_seq (s : ClientState) (_account : AccountAddress)
    (_sequence_number : Nat) (_fetch_events : Bool) (env : Nat → CallOutcome) :
    ClientState × OpResult (Option (Transaction × Option (List ContractEvent))) :=
  let r := get_with_proof_sync s env
  match r.2.1 with
  | Except.error e => (r.1, OpResult.err e)
  | Except.ok response =>
    match response.response_items with
    | [] => (r.1, OpResult.panic)
    | item :: _ =>
      match item.into_get_account_txn_by_seq_num_response with
      | Except.error e => (r.1, OpResult.err e)
      | Except.ok (txn_with_proof, _) =>
        (r.1, OpResult.ok (txn_with_proof.map (fun t => (t.transaction, t.events))))

/-- `LibraClient::get_txn_by_range`: one `GetTransactions` request through
the retried read path, then `response_items.remove(0)` (a panic when the
item list is empty), the variant unwrap, and the pairing transform: when the
service supplies event lists each is wrapped in `some`, otherwise a list of
`none` of the same length as the transactions is used; the two lists are
combined with `itertools::zip_eq`, which panics when their lengths differ. -/
def get_txn_by_range (s : ClientState) (_start_version _limit : Nat)
    (_fetch_events : Bool) (env : Nat → CallOutcome) :
    ClientState × OpResult (List (Transaction × Option (List ContractEvent))) :=
  let r := get_with_proof_sync s env
  match r.2.1 with
  | Except.error e => (r.1, OpResult.err e)
  | Except.ok response =>
    match response.response_items with
    | [] => (r.1, OpResult.panic)
    | item :: _ =>
      match item.into_get_transactions_response with
      | Except.error e => (r.1, OpResult.err e)
      | Except.ok (transactions, events) =>
        let num_txns := transactions.length
        let event_lists : List (Option (List ContractEvent)) :=
          match events with
          | some event_lists => event_lists.map some
          | none => List.replicate num_txns none
        match zip_eq transactions event_lists with
        | some pairs => (r.1, OpResult.ok pairs)
        | none => (r.1, OpResult.panic)

/-- `LibraClient::get_events_by_access_path`: one
`GetEventsByEventAccessPath` request through the retried read path, then
`response_items.remove(0)` (a panic when the item list is empty) and an
inline match on the variant, bailing on any other variant. -/
def get_events_by_access_path (s : ClientState) (_access_path : AccessPath)
    (_start_event_seq_num : Nat) (_ascending : Bool) (_limit : Nat)
    (env : Nat → CallOutcome) :
    ClientState × OpResult (List EventWithProof × AccountStateWithProof) :=
  let r := get_with_proof_sync s env
  match r.2.1 with
  | Except.error e => (r.1, OpResult.err e)
  | Except.ok response =>
    match response.response_items with
    | [] => (r.1, OpResult.panic)
    | value_with_proof :: _ =>
      match value_with_proof with
      | ResponseItem.GetEventsByEventAccessPath events_with_proof proof_of_latest_event =>
        (r.1, OpResult.ok (events_with_proof, proof_of_latest_event))
      | _ => (r.1, OpResult.err (ClientError.protocol "incorrect type of response returned"))

/-- One public read operation of the client, with its arguments. -/
inductive ReadCall : Type where
  | accountBlob (address : AccountAddress)
  | sequenceNumber (address : AccountAddress)
  | txnByAccSeq (account : AccountAddress) (sequence_number : Nat) (fetch_events : Bool)
  | txnByRange (start_version limit : Nat) (fetch_events : Bool)
  | eventsByAccessPath (path : AccessPath) (start_event_seq_num : Nat)
      (ascending : Bool) (limit : Nat)

/-- The client state after performing one read operation whose external
outcomes are given by `env`. -/
def readCallState (c : ReadCall) (s : ClientState) (env : Nat → CallOutcome) :
    ClientState :=
  match c with
  | ReadCall.accountBlob a => (get_account_blob s a env).1
  | ReadCall.sequenceNumber a => (get_sequence_number s a env).1
  | ReadCall.txnByAccSeq a n fe => (get_txn_by_acc_seq s a n fe env).1
  | ReadCall.txnByRange sv lim fe => (get_txn_by_range s sv lim fe env).1
  | ReadCall.eventsByAccessPath p n asc lim =>
    (get_events_by_access_path s p n asc lim env).1

/-- The client state after performing a sequence of read operations, each
with its own external-outcome oracle. -/
def runReads (s : ClientState) : List (ReadCall × (Nat → CallOutcome)) → ClientState
  | [] => s
  | (c, env) :: rest => runReads (readCallState c s env) rest

/-- The contract of the external verification engine for one attempt, seen
from state `s`: when the outcome is a successful verification, the new
trusted state's version is at least the current trusted version. -/
def ContractOk (s : ClientState) (o : CallOutcome) : Prop :=
  ∀ change resp, o = CallOutcome.verified change resp →
    s.trusted_state.version ≤ change.new_state.version

/-- The verification-engine contract holds for every attempt of one read
call started in state `s`. -/
def EnvOk (s : ClientState) (env : Nat → CallOutcome) : Prop :=
  ∀ i, ContractOk s (env i)

/-- The verification-engine contract holds along a whole sequence of read
operations, each judged against the state in force when it starts. -/
def AllContractsOk (s : ClientState) :
    List (ReadCall × (Nat → CallOutcome)) → Prop
  | [] => True
  | (c, env) :: rest => EnvOk s env ∧ AllContractsOk (readCallState c s env) rest

theorem send_loop_zero (send_oracle : Nat → Except SendError HttpResponse)
    (t : Nat) (resp : Except SendError HttpResponse) :
    send_with_retry_loop send_oracle 0 t resp = (resp, t + 1) := rfl

theorem send_loop_succ_pos (send_oracle : Nat → Except SendError HttpResponse)
    (fuel t : Nat) (resp : Except SendError HttpResponse)
    (h : (t < MAX_GRPC_RETRY_COUNT && exceptIsErr resp) = true) :
    send_with_retry_loop send_oracle (fuel + 1) t resp =
      send_with_retry_loop send_oracle fuel (t + 1) (send_oracle (t + 1)) := by
  simp only [send_with_retry_loop, h, if_true]

theorem send_loop_succ_neg (send_oracle : Nat → Except SendError HttpResponse)
    (fuel t : Nat) (resp : Except SendError HttpResponse)
    (h : (t < MAX_GRPC_RETRY_COUNT && exceptIsErr resp) = false) :
    send_with_retry_loop send_oracle (fuel + 1) t resp = (resp, t + 1) := by
  simp only [send_with_retry_loop, h, if_false, Bool.false_eq_true]

theorem sync_loop_zero (env : Nat → CallOutcome) (t : Nat) (s : ClientState)
    (resp : Except ClientError UpdateToLatestLedgerResponse) :
    get_with_proof_sync_loop env 0 t s resp = (s, resp, t + 1) := rfl

theorem sync_loop_succ_pos (env : Nat → CallOutcome) (fuel t : Nat) (s : ClientState)
    (resp : Except ClientError UpdateToLatestLedgerResponse)
    (h : need_to_retry t resp = true) :
    get_with_proof_sync_loop env (fuel + 1) t s resp =
      get_with_proof_sync_loop env fuel (t + 1)
        (get_with_proof s (env (t + 1))).1 (get_with_proof s (env (t + 1))).2 := by
  simp only [get_with_proof_sync_loop, h, if_true]

theorem sync_loop_succ_neg (env : Nat → CallOutcome) (fuel t : Nat) (s : ClientState)
    (resp : Except ClientError UpdateToLatestLedgerResponse)
    (h : need_to_retry t resp = false) :
    get_with_proof_sync_loop env (fuel + 1) t s resp = (s, resp, t + 1) := by
  simp only [get_with_proof_sync_loop, h, if_false, Bool.false_eq_true]

/-- An attempt that fails leaves the client state untouched. -/
theorem get_with_proof_err_frame (s : ClientState) (o : CallOutcome)
    (e : ClientError) (h : (get_with_proof s o).2 = Except.error e) :
    (get_with_proof s o).1 = s := by
  cases o with
  | transportErr code => rfl
  | decodeErr msg => rfl
  | verifyErr msg => rfl
  | verified change resp => cases change <;> simp [get_with_proof] at h

/-- An attempt whose outcome respects the verification-engine contract never
moves the trusted version backward. -/
theorem get_with_proof_mono (s : ClientState) (o : CallOutcome) (h : ContractOk s o) :
    s.trusted_state.version ≤ (get_with_proof s o).1.trusted_state.version := by
  cases o with
  | transportErr code => exact Nat.le_refl _
  | decodeErr msg => exact Nat.le_refl _
  | verifyErr msg => exact Nat.le_refl _
  | verified change resp =>
    have hc := h change resp rfl
    cases change with
    | Epoch ns li vs => simpa [get_with_proof, TrustedStateChange.new_state] using hc
    | Version ns => simpa [get_with_proof, TrustedStateChange.new_state] using hc

/-- When the classifier asks for a retry, the attempt count is below the cap
and the result is an error. -/
theorem need_to_retry_true_elim {α : Type} (t : Nat) (r : Except ClientError α)
    (h : need_to_retry t r = true) :
    t < MAX_GRPC_RETRY_COUNT ∧ ∃ e, r = Except.error e := by
  unfold need_to_retry at h
  split at h
  · exact absurd h (by simp)
  · refine ⟨by omega, ?_⟩
    cases r with
    | ok a => exact absurd h (by simp)
    | error e => exact ⟨e, rfl⟩

/-- Loop invariant: if the result of the retried read path is an error, the
client state equals the state the whole call started from. -/
theorem sync_loop_err_frame (env : Nat → CallOutcome) (s0 : ClientState) :
    ∀ (fuel t : Nat) (s : ClientState)
      (resp : Except ClientError UpdateToLatestLedgerResponse),
    (∀ e, resp = Except.error e → s = s0) →
    ∀ e, (get_with_proof_sync_loop env fuel t s resp).2.1 = Except.error e →
      (get_with_proof_sync_loop env fuel t s resp).1 = s0 := by
  intro fuel
  induction fuel with
  | zero =>
    intro t s resp hinv e h
    rw [sync_loop_zero] at h ⊢
    exact hinv e h
  | succ fuel ih =>
    intro t s resp hinv e h
    by_cases hr : need_to_retry t resp = true
    · obtain ⟨-, e0, he0⟩ := need_to_retry_true_elim t resp hr
      have hs : s = s0 := hinv e0 he0
      rw [sync_loop_succ_pos env fuel t s resp hr] at h ⊢
      refine ih (t + 1) _ _ ?_ e h
      intro e1 h1
      rw [hs] at h1 ⊢
      exact get_with_proof_err_frame s0 (env (t + 1)) e1 h1
    · rw [sync_loop_succ_neg env fuel t s resp (by simpa using hr)] at h ⊢
      exact hinv e h

/-- Loop invariant: under the verification-engine contract, the trusted
version never decreases across the retried read path. -/
theorem sync_loop_mono (env : Nat → CallOutcome) (s0 : ClientState)
    (henv : EnvOk s0 env) :
    ∀ (fuel t : Nat) (s : ClientState)
      (resp : Except ClientError UpdateToLatestLedgerResponse),
    (∀ e, resp = Except.error e → s = s0) →
    s0.trusted_state.version ≤ s.trusted_state.version →
    s0.trusted_state.version ≤
      (get_with_proof_sync_loop env fuel t s resp).1.trusted_state.version := by
  intro fuel
  induction fuel with
  | zero =>
    intro t s resp hinv hmono
    rw [sync_loop_zero]
    exact hmono
  | succ fuel ih =>
    intro t s resp hinv hmono
    by_cases hr : need_to_retry t resp = true
    · obtain ⟨-, e0, he0⟩ := need_to_retry_true_elim t resp hr
      have hs : s = s0 := hinv e0 he0
      rw [sync_loop_succ_pos env fuel t s resp hr, hs]
      refine ih (t + 1) _ _ ?_ ?_
      · intro e1 h1
        exact get_with_proof_err_frame s0 (env (t + 1)) e1 h1
      · exact get_with_proof_mono s0 (env (t + 1)) (henv (t + 1))
    · rw [sync_loop_succ_neg env fuel t s resp (by simpa using hr)]
      exact hmono

/-- If the whole retried read path fails, the client state is untouched. -/
theorem get_with_proof_sync_err_frame (s : ClientState) (env : Nat → CallOutcome)
    (e : ClientError) (h : (get_with_proof_sync s env).2.1 = Except.error e) :
    (get_with_proof_sync s env).1 = s := by
  unfold get_with_proof_sync at h ⊢
  refine sync_loop_err_frame env s _ 0 _ _ ?_ e h
  intro e1 h1
  exact get_with_proof_err_frame s (env 0) e1 h1

/-- Under the verification-engine contract, one retried read path call never
moves the trusted version backward. -/
theorem get_with_proof_sync_mono (s : ClientState) (env : Nat → CallOutcome)
    (henv : EnvOk s env) :
    s.trusted_state.version ≤ (get_with_proof_sync s env).1.trusted_state.version := by
  unfold get_with_proof_sync
  refine sync_loop_mono env s henv _ 0 _ _ ?_ ?_
  · intro e1 h1
    exact get_with_proof_err_frame s (env 0) e1 h1
  · exact get_with_proof_mono s (env 0) (henv 0)

/-- Every branch of `get_account_blob` returns the read-path state. -/
theorem get_account_blob_state (s : ClientState) (a : AccountAddress)
    (env : Nat → CallOutcome) :
    (get_account_blob s a env).1 = (get_with_proof_sync s env).1 := by
  unfold get_account_blob
  dsimp only
  repeat' split
  all_goals rfl

/-- Every branch of `get_sequence_number` returns the read-path state. -/
theorem get_sequence_number_state (s : ClientState) (a : AccountAddress)
    (env : Nat → CallOutcome) :
    (get_sequence_number s a env).1 = (get_with_proof_sync s env).1 := by
  unfold get_sequence_number
  rw [← get_account_blob_state s a env]
  repeat' split
  all_goals simp_all

/-- Every branch of `get_txn_by_acc_seq` returns the read-path state. -/
theorem get_txn_by_acc_seq_state (s : ClientState) (a : AccountAddress)
    (n : Nat) (fe : Bool) (env : Nat → CallOutcome) :
    (get_txn_by_acc_seq s a n fe env).1 = (get_with_proof_sync s env).1 := by
  unfold get_txn_by_acc_seq
  dsimp only
  repeat' split
  all_goals rfl

/-- Every branch of `get_txn_by_range` returns the read-path state. -/
theorem get_txn_by_range_state (s : ClientState) (sv lim : Nat) (fe : Bool)
    (env : Nat → CallOutcome) :
    (get_txn_by_range s sv lim fe env).1 = (get_with_proof_sync s env).1 := by
  unfold get_txn_by_range
  dsimp only
  repeat' split
  all_goals rfl

/-- Every branch of `get_events_by_access_path` returns the read-path state. -/
theorem get_events_by_access_path_state (s : ClientState) (p : AccessPath)
    (n : Nat) (asc : Bool) (lim : Nat) (env : Nat → CallOutcome) :
    (get_events_by_access_path s p n asc lim env).1 = (get_with_proof_sync s env).1 := by
  unfold get_events_by_access_path
  dsimp only
  repeat' split
  all_goals rfl

/-- Every read operation leaves the state produced by the retried read path. -/
theorem readCallState_eq (c : ReadCall) (s : ClientState) (env : Nat → CallOutcome) :
    readCallState c s env = (get_with_proof_sync s env).1 := by
  cases c with
  | accountBlob a => exact get_account_blob_state s a env
  | sequenceNumber a => exact get_sequence_number_state s a env
  | txnByAccSeq a n fe => exact get_txn_by_acc_seq_state s a n fe env
  | txnByRange sv lim fe => exact get_txn_by_range_state s sv lim fe env
  | eventsByAccessPath p n asc lim => exact get_events_by_access_path_state s p n asc lim env

/-- When the first attempt verifies successfully, the retried read path
performs exactly that one attempt and returns its outcome. -/
theorem get_with_proof_sync_verified (s : ClientState) (env : Nat → CallOutcome)
    (change : TrustedStateChange) (resp : UpdateToLatestLedgerResponse)
    (h : env 0 = CallOutcome.verified change resp) :
    get_with_proof_sync s env =
      ((get_with_proof s (env 0)).1, Except.ok resp, 1) := by
  have h2 : (get_with_proof s (env 0)).2 = Except.ok resp := by
    rw [h]; cases change <;> rfl
  unfold get_with_proof_sync
  show get_with_proof_sync_loop env 2 0 _ _ = _
  rw [h2, sync_loop_succ_neg env 1 0 _ _ (by rfl)]

/-- When the first attempt fails with a verification error, the retried read
path performs exactly that one attempt and fails with it, state untouched. -/
theorem get_with_proof_sync_verify_err (s : ClientState) (env : Nat → CallOutcome)
    (msg : String) (h : env 0 = CallOutcome.verifyErr msg) :
    get_with_proof_sync s env = (s, Except.error (ClientError.verify msg), 1) := by
  unfold get_with_proof_sync
  show get_with_proof_sync_loop env 2 0 _ _ = _
  rw [h]
  rw [show (get_with_proof s (CallOutcome.verifyErr msg)).2
        = Except.error (ClientError.verify msg) from rfl]
  rw [sync_loop_succ_neg env 1 0 _ _ (by rfl)]
  rfl

/-- `zip_eq` on lists of equal length is `List.zip`. -/
theorem zip_eq_of_length_eq {α β : Type} :
    ∀ (as_ : List α) (bs : List β), as_.length = bs.length →
      zip_eq as_ bs = some (as_.zip bs)
  | [], [], _ => rfl
  | a :: as_, b :: bs, h => by
    have ih := zip_eq_of_length_eq as_ bs (by simpa using h)
    simp [zip_eq, ih]
  | [], _ :: _, h => by simp at h
  | _ :: _, [], h => by simp at h

/-- `zip_eq` on lists of different lengths panics. -/
theorem zip_eq_none_of_length_ne {α β : Type} :
    ∀ (as_ : List α) (bs : List β), as_.length ≠ bs.length → zip_eq as_ bs = none
  | [], [], h => absurd rfl h
  | [], _ :: _, _ => rfl
  | _ :: _, [], _ => rfl
  | a :: as_, b :: bs, h => by
    have ih := zip_eq_none_of_length_ne as_ bs (by simpa using h)
    simp [zip_eq, ih]

/-- Zipping a list with same-length replicated `none` tags every element
with `none`. -/
theorem zip_replicate_none {α β : Type} :
    ∀ as_ : List α,
      as_.zip (List.replicate as_.length (none : Option β)) =
        as_.map (fun a => (a, none))
  | [] => rfl
  | a :: as_ => by simp [List.replicate, zip_replicate_none as_]

/-- `Json.isNull` decides equality with the null value. -/
theorem isNull_iff (r : Json) : Json.isNull r = true ↔ r = Json.null := by
  cases r <;> simp [Json.isNull]

/-- Boolean equality on `TonicCode` agrees with propositional equality. -/
theorem tonicCode_beq_iff (a b : TonicCode) : (a == b) = true ↔ a = b := by
  cases a <;> cases b <;> simp_all <;> rfl

/-- C1: for every client instance and every sequence of read operations, the
version of the stored trusted state is non-decreasing, assuming the external
verification engine's contract that a successful `TrustedStateChange`
carries a new state whose version is at least the current one. -/
theorem claim_C1_trusted_version_monotone :
    ∀ (s : ClientState) (calls : List (ReadCall × (Nat → CallOutcome))),
    AllContractsOk s calls →
    s.trusted_state.version ≤ (runReads s calls).trusted_state.version := by
  intro s calls
  induction calls generalizing s with
  | nil => intro _; exact Nat.le_refl _
  | cons hd tl ih =>
    obtain ⟨c, env⟩ := hd
    intro h
    simp only [AllContractsOk] at h
    obtain ⟨henv, hrest⟩ := h
    simp only [runReads]
    calc s.trusted_state.version
        ≤ (readCallState c s env).trusted_state.version := by
          rw [readCallState_eq]
          exact get_with_proof_sync_mono s env henv
      _ ≤ (runReads (readCallState c s env) tl).trusted_state.version := ih _ hrest

/-- A concrete client state used to exercise the claims. -/
def stateW : ClientState :=
  { trusted_state := { version := 3 }, latest_epoch_change_li := none }

/-- A concrete verified response used to exercise the claims. -/
def respW : UpdateToLatestLedgerResponse :=
  { response_items := [], ledger_info_with_sigs := { version := 5, epoch := 1 } }

/-- A concrete always-verifying oracle advancing the version to 5. -/
def envAdvanceW : Nat → CallOutcome :=
  fun _ => CallOutcome.verified (TrustedStateChange.Version { version := 5 }) respW

/-- A concrete always-failing verification oracle. -/
def envVerifyFailW : Nat → CallOutcome :=
  fun _ => CallOutcome.verifyErr "bad"

/-- A concrete two-read sequence used to exercise claim C1. -/
def callsW : List (ReadCall × (Nat → CallOutcome)) :=
  [(ReadCall.accountBlob { addr := 1 }, envAdvanceW),
   (ReadCall.txnByRange 0 1 false, envVerifyFailW)]

theorem claim_C1_witness :
    AllContractsOk stateW callsW ∧
    stateW.trusted_state.version ≤ (runReads stateW callsW).trusted_state.version := by
  have hc : AllContractsOk stateW callsW := by
    refine ⟨?_, ?_, trivial⟩
    · intro i change resp h
      simp only [envAdvanceW] at h
      injection h with h1 h2
      subst h1
      decide
    · intro i change resp h
      simp only [envVerifyFailW] at h
      exact CallOutcome.noConfusion h
  exact ⟨hc, claim_C1_trusted_version_monotone stateW callsW hc⟩

/-- C2: a verification failure makes the read attempt fail with the
verification error and leaves both `trusted_state` and
`latest_epoch_change_li` exactly as they were; more generally, whenever the
retried read path fails, every read operation returns that error with the
Trusted State Store untouched — no partial update occurs. -/
theorem claim_C2_no_partial_update_on_verify_failure :
    ∀ (s : ClientState) (env : Nat → CallOutcome) (msg : String) (e : ClientError)
      (a : AccountAddress) (n sv lim : Nat) (fe : Bool) (p : AccessPath) (asc : Bool),
    get_with_proof s (CallOutcome.verifyErr msg) = (s, Except.error (ClientError.verify msg))
  ∧ (env 0 = CallOutcome.verifyErr msg →
       get_with_proof_sync s env = (s, Except.error (ClientError.verify msg), 1))
  ∧ ((get_with_proof_sync s env).2.1 = Except.error e →
       get_account_blob s a env = (s, OpResult.err e)
     ∧ get_sequence_number s a env = (s, OpResult.err e)
     ∧ get_txn_by_acc_seq s a n fe env = (s, OpResult.err e)
     ∧ get_txn_by_range s sv lim fe env = (s, OpResult.err e)
     ∧ get_events_by_access_path s p n asc lim env = (s, OpResult.err e)) := by
  intro s env msg e a n sv lim fe p asc
  refine ⟨rfl, ?_, ?_⟩
  · intro h
    exact get_with_proof_sync_verify_err s env msg h
  · intro h
    have hs : (get_with_proof_sync s env).1 = s :=
      get_with_proof_sync_err_frame s env e h
    refine ⟨?_, ?_, ?_, ?_, ?_⟩
    · simp only [get_account_blob, h, hs]
    · simp only [get_sequence_number, get_account_blob, h, hs]
    · simp only [get_txn_by_acc_seq, h, hs]
    · simp only [get_txn_by_range, h, hs]
    · simp only [get_events_by_access_path, h, hs]

theorem claim_C2_witness :
    get_account_blob stateW { addr := 1 } envVerifyFailW
      = (stateW, OpResult.err (ClientError.verify "bad"))
  ∧ get_events_by_access_path stateW { path := 2 } 0 true 10 envVerifyFailW
      = (stateW, OpResult.err (ClientError.verify "bad")) := by
  have hmain := claim_C2_no_partial_update_on_verify_failure stateW envVerifyFailW
    "bad" (ClientError.verify "bad") { addr := 1 } 0 0 0 false { path := 2 } true
  have h : (get_with_proof_sync stateW envVerifyFailW).2.1
      = Except.error (ClientError.verify "bad") := rfl
  exact ⟨(hmain.2.2 h).1, (hmain.2.2 h).2.2.2.2⟩

/-- C3: `submit_transaction` succeeds exactly when the JSON-RPC call
succeeds with a `null` result (a non-null result is itself an error), and
the sender sequence number is bumped by one if and only if the call
succeeds; every failing call leaves it unchanged. -/
theorem claim_C3_submit_exactly_once_increment :
    ∀ (seqOpt : Option Nat) (id : Nat)
      (send_oracle : Nat → Except SendError HttpResponse),
    (send_libra_request id send_oracle = Except.ok Json.null →
       submit_transaction seqOpt id send_oracle = (Except.ok (), seqOpt.map (· + 1)))
  ∧ (∀ r, send_libra_request id send_oracle = Except.ok r → r ≠ Json.null →
       submit_transaction seqOpt id send_oracle
         = (Except.error (SubmitError.unexpectedResult r), seqOpt))
  ∧ (∀ e, send_libra_request id send_oracle = Except.error e →
       submit_transaction seqOpt id send_oracle
         = (Except.error (SubmitError.rpcFailed e), seqOpt))
  ∧ (∀ (u : Unit) (seq1 : Option Nat),
       submit_transaction seqOpt id send_oracle = (Except.ok u, seq1) →
       send_libra_request id send_oracle = Except.ok Json.null
         ∧ seq1 = seqOpt.map (· + 1)) := by
  intro seqOpt id send_oracle
  refine ⟨?_, ?_, ?_, ?_⟩
  · intro h
    simp only [submit_transaction, h, Json.isNull, if_true]
  · intro r h hne
    have hb : Json.isNull r = false := by
      cases hr : Json.isNull r
      · rfl
      · exact absurd ((isNull_iff r).mp hr) hne
    simp only [submit_transaction, h, hb, Bool.false_eq_true, if_false]
  · intro e h
    simp only [submit_transaction, h]
  · intro u seq1 h
    cases hr : send_libra_request id send_oracle with
    | error e =>
      simp only [submit_transaction, hr] at h
      simp at h
    | ok r =>
      cases hb : Json.isNull r with
      | false =>
        simp only [submit_transaction, hr, hb, Bool.false_eq_true, if_false] at h
        simp at h
      | true =>
        have hrn : r = Json.null := (isNull_iff r).mp hb
        subst hrn
        simp only [submit_transaction, hr, Json.isNull, if_true] at h
        have h2 := congrArg Prod.snd h
        exact ⟨rfl, h2.symm⟩

/-- A concrete JSON-RPC oracle answering with a well-formed null result for
request id 7. -/
def oracleNullW : Nat → Except SendError HttpResponse :=
  fun _ => Except.ok
    { status := 200,
      body := some (Json.obj
        [("jsonrpc", Json.str "2.0"), ("id", Json.num 7), ("result", Json.null)]) }

theorem claim_C3_witness :
    submit_transaction (some 5) 7 oracleNullW = (Except.ok (), some 6) := by
  have h : send_libra_request 7 oracleNullW = Except.ok Json.null := rfl
  exact (claim_C3_submit_exactly_once_increment (some 5) 7 oracleNullW).1 h

/-- C4: a successful verification produces exactly one of the two
`TrustedStateChange` variants; an `Epoch` result replaces both the trusted
state and the stored epoch change ledger info, while a `Version` result
replaces only the trusted state and leaves the stored certificate
unchanged. -/
theorem claim_C4_epoch_change_certificate :
    ∀ (s : ClientState) (change : TrustedStateChange)
      (resp : UpdateToLatestLedgerResponse),
    ((∃ ns li vs, change = TrustedStateChange.Epoch ns li vs) ↔
       ¬ ∃ ns, change = TrustedStateChange.Version ns)
  ∧ (∀ ns li vs, change = TrustedStateChange.Epoch ns li vs →
       get_with_proof s (CallOutcome.verified change resp) =
         ({ trusted_state := ns, latest_epoch_change_li := some li }, Except.ok resp))
  ∧ (∀ ns, change = TrustedStateChange.Version ns →
       get_with_proof s (CallOutcome.verified change resp) =
         ({ s with trusted_state := ns }, Except.ok resp)
     ∧ (get_with_proof s (CallOutcome.verified change resp)).1.latest_epoch_change_li
         = s.latest_epoch_change_li) := by
  intro s change resp
  refine ⟨?_, ?_, ?_⟩
  · cases change with
    | Epoch ns li vs => simp
    | Version ns => simp
  · intro ns li vs h
    subst h
    rfl
  · intro ns h
    subst h
    exact ⟨rfl, rfl⟩

theorem claim_C4_witness :
    get_with_proof stateW
        (CallOutcome.verified
          (TrustedStateChange.Epoch { version := 9 } { version := 9, epoch := 2 } "vs") respW)
      = ({ trusted_state := { version := 9 },
           latest_epoch_change_li := some { version := 9, epoch := 2 } }, Except.ok respW)
  ∧ (get_with_proof stateW
        (CallOutcome.verified (TrustedStateChange.Version { version := 9 }) respW)
      ).1.latest_epoch_change_li = stateW.latest_epoch_change_li := by
  constructor
  · exact (claim_C4_epoch_change_certificate stateW _ respW).2.1 _ _ _ rfl
  · exact ((claim_C4_epoch_change_certificate stateW _ respW).2.2 _ rfl).2

/-- C5: a read whose attempts all fail with a retryable transport condition
performs exactly 3 full build-send-verify attempts (1 initial plus 2
retries) and surfaces the transport error; a JSON-RPC send that always
fails performs exactly 3 sends and surfaces the failure. -/
theorem claim_C5_bounded_retry :
    ∀ (s : ClientState) (env : Nat → CallOutcome) (code : TonicCode)
      (send_oracle : Nat → Except SendError HttpResponse) (e : SendError),
    ((∀ i, env i = CallOutcome.transportErr code) →
     (code = TonicCode.Unavailable ∨ code = TonicCode.Unknown) →
     get_with_proof_sync s env = (s, Except.error (ClientError.grpc code), 3))
  ∧ ((∀ i, send_oracle i = Except.error e) →
     send_with_retry send_oracle = (Except.error e, 3)) := by
  intro s env code send_oracle e
  constructor
  · intro h hcode
    rcases hcode with rfl | rfl
    all_goals
      unfold get_with_proof_sync
      rw [h 0]
      show get_with_proof_sync_loop env 1 1
        (get_with_proof s (env 1)).1 (get_with_proof s (env 1)).2 = _
      rw [h 1]
      show get_with_proof_sync_loop env 0 2
        (get_with_proof s (env 2)).1 (get_with_proof s (env 2)).2 = _
      rw [h 2]
      rfl
  · intro hs
    unfold send_with_retry
    rw [hs 0]
    show send_with_retry_loop send_oracle 1 1 (send_oracle 1) = _
    rw [hs 1]
    show send_with_retry_loop send_oracle 0 2 (send_oracle 2) = _
    rw [hs 2]
    rfl

/-- A concrete oracle whose every attempt is an unavailable transport error. -/
def envUnavailW : Nat → CallOutcome :=
  fun _ => CallOutcome.transportErr TonicCode.Unavailable

/-- A concrete JSON-RPC oracle whose every send fails. -/
def oracleFailW : Nat → Except SendError HttpResponse :=
  fun _ => Except.error { msg := "connection refused" }

theorem claim_C5_witness :
    get_with_proof_sync stateW envUnavailW
      = (stateW, Except.error (ClientError.grpc TonicCode.Unavailable), 3)
  ∧ send_with_retry oracleFailW
      = (Except.error { msg := "connection refused" }, 3) := by
  have hmain := claim_C5_bounded_retry stateW envUnavailW TonicCode.Unavailable
    oracleFailW { msg := "connection refused" }
  exact ⟨hmain.1 (fun _ => rfl) (Or.inl rfl), hmain.2 (fun _ => rfl)⟩

/-- C6: the retry classifier answers retry exactly when the attempt count is
strictly below the cap of 2 and the error downcasts to a transport status of
`Unavailable` or `Unknown`; consequently a read failing with a verification
error makes exactly 1 attempt. -/
theorem claim_C6_retry_classifier :
    ∀ (α : Type) (try_cnt : Nat) (ret : Except ClientError α)
      (s : ClientState) (env : Nat → CallOutcome) (msg : String),
    (need_to_retry try_cnt ret = true ↔
      (try_cnt < MAX_GRPC_RETRY_COUNT ∧
        ∃ code, ret = Except.error (ClientError.grpc code) ∧
          (code = TonicCode.Unavailable ∨ code = TonicCode.Unknown)))
  ∧ (env 0 = CallOutcome.verifyErr msg →
      get_with_proof_sync s env = (s, Except.error (ClientError.verify msg), 1)) := by
  intro α try_cnt ret s env msg
  constructor
  · constructor
    · intro h
      obtain ⟨hlt, e, he⟩ := need_to_retry_true_elim try_cnt ret h
      subst he
      refine ⟨hlt, ?_⟩
      unfold need_to_retry at h
      rw [if_neg (by omega)] at h
      cases e with
      | grpc code =>
        refine ⟨code, rfl, ?_⟩
        simp only [ClientError.downcast_tonic] at h
        cases code
        case Unavailable => exact Or.inl rfl
        case Unknown => exact Or.inr rfl
        all_goals exact absurd h (by decide)
      | decode m => simp [ClientError.downcast_tonic] at h
      | verify m => simp [ClientError.downcast_tonic] at h
      | protocol m => simp [ClientError.downcast_tonic] at h
    · rintro ⟨hlt, code, rfl, hcode⟩
      unfold need_to_retry
      rw [if_neg (Nat.not_le.mpr hlt)]
      rcases hcode with rfl | rfl <;> rfl
  · intro h
    exact get_with_proof_sync_verify_err s env msg h

theorem claim_C6_witness :
    need_to_retry 0 (Except.error (ClientError.grpc TonicCode.Unavailable) :
        Except ClientError UpdateToLatestLedgerResponse) = true
  ∧ need_to_retry 0 (Except.error (ClientError.verify "bad") :
        Except ClientError UpdateToLatestLedgerResponse) = false
  ∧ get_with_proof_sync stateW envVerifyFailW
      = (stateW, Except.error (ClientError.verify "bad"), 1) := by
  have hmain := claim_C6_retry_classifier UpdateToLatestLedgerResponse 0
    (Except.error (ClientError.grpc TonicCode.Unavailable)) stateW envVerifyFailW "bad"
  refine ⟨?_, rfl, hmain.2 rfl⟩
  exact hmain.1.mpr ⟨by decide, TonicCode.Unavailable, rfl, Or.inl rfl⟩

/-- C7: a JSON-RPC response whose `id` field differs from (or is absent
relative to) the id sent makes the call fail with an id-mismatch error, even
when the `result` field is well-formed and the `error` field is absent. -/
theorem claim_C7_id_integrity :
    ∀ (id : Nat) (send_oracle : Nat → Except SendError HttpResponse)
      (resp : HttpResponse) (data : Json),
    send_oracle 0 = Except.ok resp →
    (400 ≤ resp.status && resp.status < 600) = false →
    resp.body = some data →
    Json.isProtocolV2 (Json.get data "jsonrpc") = true →
    Json.isEchoedId (Json.get data "id") id = false →
    Json.get data "error" = none →
    (∃ r, Json.get data "result" = some r) →
    send_libra_request id send_oracle
      = Except.error (RpcError.idMismatch (Json.get data "id") id) := by
  intro id send_oracle resp data h0 hst hb hp hid herr hres
  have hsend : (send_with_retry send_oracle).1 = Except.ok resp := by
    unfold send_with_retry
    rw [h0]
    rfl
  unfold send_libra_request
  rw [hsend]
  simp only [hst, hb, hp, hid, Bool.false_eq_true, if_false, if_true]

/-- A concrete JSON-RPC oracle answering request id 7 with a well-formed
result under the wrong id 8. -/
def oracleWrongIdW : Nat → Except SendError HttpResponse :=
  fun _ => Except.ok
    { status := 200,
      body := some (Json.obj
        [("jsonrpc", Json.str "2.0"), ("id", Json.num 8), ("result", Json.str "ok")]) }

theorem claim_C7_witness :
    send_libra_request 7 oracleWrongIdW
      = Except.error (RpcError.idMismatch (some (Json.num 8)) 7) := by
  have h := claim_C7_id_integrity 7 oracleWrongIdW
    { status := 200,
      body := some (Json.obj
        [("jsonrpc", Json.str "2.0"), ("id", Json.num 8), ("result", Json.str "ok")]) }
    (Json.obj [("jsonrpc", Json.str "2.0"), ("id", Json.num 8), ("result", Json.str "ok")])
    rfl rfl rfl rfl rfl rfl ⟨Json.str "ok", rfl⟩
  exact h

/-- C8: once the protocol-tag and id checks pass, a present `error` field
fails the call carrying its contents regardless of a present `result`; an
absent `error` with a present `result` returns the result value; and the
absence of both is a protocol violation that fails the call. -/
theorem claim_C8_error_result_extraction :
    ∀ (id : Nat) (send_oracle : Nat → Except SendError HttpResponse)
      (resp : HttpResponse) (data : Json),
    send_oracle 0 = Except.ok resp →
    (400 ≤ resp.status && resp.status < 600) = false →
    resp.body = some data →
    Json.isProtocolV2 (Json.get data "jsonrpc") = true →
    Json.isEchoedId (Json.get data "id") id = true →
    ((∀ err, Json.get data "error" = some err →
        send_libra_request id send_oracle = Except.error (RpcError.rpcError err))
    ∧ (Json.get data "error" = none → ∀ r, Json.get data "result" = some r →
        send_libra_request id send_oracle = Except.ok r)
    ∧ (Json.get data "error" = none → Json.get data "result" = none →
        send_libra_request id send_oracle = Except.error RpcError.noResult)) := by
  intro id send_oracle resp data h0 hst hb hp hid
  have hsend : (send_with_retry send_oracle).1 = Except.ok resp := by
    unfold send_with_retry
    rw [h0]
    rfl
  refine ⟨?_, ?_, ?_⟩
  · intro err herr
    unfold send_libra_request
    rw [hsend]
    simp only [hst, hb, hp, hid, herr, Bool.false_eq_true, if_false, if_true]
  · intro herr r hres
    unfold send_libra_request
    rw [hsend]
    simp only [hst, hb, hp, hid, herr, hres, Bool.false_eq_true, if_false, if_true]
  · intro herr hres
    unfold send_libra_request
    rw [hsend]
    simp only [hst, hb, hp, hid, herr, hres, Bool.false_eq_true, if_false, if_true]

/-- A concrete JSON-RPC oracle answering request id 7 with both an `error`
field and a `result` field. -/
def oracleBothW : Nat → Except SendError HttpResponse :=
  fun _ => Except.ok
    { status := 200,
      body := some (Json.obj
        [("jsonrpc", Json.str "2.0"), ("id", Json.num 7),
         ("error", Json.str "rejected"), ("result", Json.null)]) }

theorem claim_C8_witness :
    send_libra_request 7 oracleBothW
      = Except.error (RpcError.rpcError (Json.str "rejected")) := by
  have h := claim_C8_error_result_extraction 7 oracleBothW
    { status := 200,
      body := some (Json.obj
        [("jsonrpc", Json.str "2.0"), ("id", Json.num 7),
         ("error", Json.str "rejected"), ("result", Json.null)]) }
    (Json.obj
      [("jsonrpc", Json.str "2.0"), ("id", Json.num 7),
       ("error", Json.str "rejected"), ("result", Json.null)])
    rfl rfl rfl rfl rfl
  exact h.1 (Json.str "rejected") rfl

/-- A verified response whose transaction count (1) differs from its
event-list count (0). -/
def respMismatchW : UpdateToLatestLedgerResponse :=
  { response_items := [ResponseItem.GetTransactions [{ payload := 1 }] (some [])],
    ledger_info_with_sigs := { version := 5, epoch := 1 } }

/-- A concrete oracle delivering the mismatched verified response. -/
def envMismatchW : Nat → CallOutcome :=
  fun _ => CallOutcome.verified (TrustedStateChange.Version { version := 5 }) respMismatchW

/-- C9 counterexample: on a verified response whose transaction count and
event-list count differ, `get_txn_by_range` panics (`itertools::zip_eq`
aborts the thread); it does not return an error value. -/
theorem claim_C9_counterexample :
    (get_txn_by_range stateW 10 3 true envMismatchW).2 = OpResult.panic
  ∧ ∀ e, (get_txn_by_range stateW 10 3 true envMismatchW).2 ≠ OpResult.err e := by
  constructor
  · rfl
  · intro e h
    rw [show (get_txn_by_range stateW 10 3 true envMismatchW).2 = OpResult.panic
      from rfl] at h
    exact OpResult.noConfusion h

/-- C9 (amended): a successful `get_txn_by_range` returns exactly one
`(transaction, events)` pair per transaction of the verified response,
positionally aligned (exactly `limit` pairs when the verified response holds
`limit` transactions); when the service omits the event lists every pair's
event slot is `none` rather than an error; and a mismatch between the
transaction count and the event-list count makes the operation panic
(`itertools::zip_eq` aborts fail-fast) rather than return. -/
theorem claim_C9_range_pairing :
    ∀ (s : ClientState) (sv lim : Nat) (fe : Bool) (env : Nat → CallOutcome)
      (change : TrustedStateChange) (li : LedgerInfoWithSignatures)
      (txns : List Transaction) (evOpt : Option (List (List ContractEvent))),
    env 0 = CallOutcome.verified change
      { response_items := [ResponseItem.GetTransactions txns evOpt],
        ledger_info_with_sigs := li } →
    ((∀ evs, evOpt = some evs → evs.length = txns.length →
        (get_txn_by_range s sv lim fe env).2 = OpResult.ok (txns.zip (evs.map some))
      ∧ (txns.zip (evs.map some)).map Prod.fst = txns
      ∧ (txns.zip (evs.map some)).map Prod.snd = evs.map some
      ∧ (txns.length = lim → (txns.zip (evs.map some)).length = lim))
    ∧ (evOpt = none →
        (get_txn_by_range s sv lim fe env).2
          = OpResult.ok (txns.map (fun t => (t, none)))
      ∧ (txns.map (fun t => (t, (none : Option (List ContractEvent))))).map Prod.fst
          = txns
      ∧ (txns.length = lim →
          (txns.map (fun t => (t, (none : Option (List ContractEvent))))).length = lim))
    ∧ (∀ evs, evOpt = some evs → evs.length ≠ txns.length →
        (get_txn_by_range s sv lim fe env).2 = OpResult.panic)) := by
  intro s sv lim fe env change li txns evOpt h
  have hsync := get_with_proof_sync_verified s env change _ h
  refine ⟨?_, ?_, ?_⟩
  · intro evs hevs hlen
    subst hevs
    refine ⟨?_, ?_, ?_, ?_⟩
    · simp only [get_txn_by_range, hsync, ResponseItem.into_get_transactions_response]
      rw [zip_eq_of_length_eq txns (evs.map some) (by simp [hlen])]
    · exact List.map_fst_zip txns (evs.map some) (by simp [hlen])
    · exact List.map_snd_zip txns (evs.map some) (by simp [hlen])
    · intro hlim
      rw [List.length_zip txns (evs.map some)]
      simp [hlen, hlim]
  · intro hevs
    subst hevs
    refine ⟨?_, ?_, ?_⟩
    · simp only [get_txn_by_range, hsync, ResponseItem.into_get_transactions_response]
      rw [zip_eq_of_length_eq txns (List.replicate txns.length none)
        (by rw [List.length_replicate])]
      rw [zip_replicate_none txns]
    · rw [List.map_map]
      rw [show (Prod.fst ∘ fun t : Transaction =>
        (t, (none : Option (List ContractEvent)))) = id from rfl]
      exact List.map_id txns
    · intro hlim
      simpa using hlim
  · intro evs hevs hlen
    subst hevs
    simp only [get_txn_by_range, hsync, ResponseItem.into_get_transactions_response]
    rw [zip_eq_none_of_length_ne txns (evs.map some) (by simpa using fun h2 => hlen h2.symm)]

/-- A verified response carrying three transactions with the event lists
omitted by the service. -/
def respRangeW : UpdateToLatestLedgerResponse :=
  { response_items := [ResponseItem.GetTransactions
      [{ payload := 10 }, { payload := 11 }, { payload := 12 }] none],
    ledger_info_with_sigs := { version := 12, epoch := 1 } }

/-- A concrete oracle delivering the three-transaction verified response. -/
def envRangeW : Nat → CallOutcome :=
  fun _ => CallOutcome.verified (TrustedStateChange.Version { version := 12 }) respRangeW

theorem claim_C9_witness :
    (get_txn_by_range stateW 10 3 true envRangeW).2
      = OpResult.ok [({ payload := 10 }, none), ({ payload := 11 }, none),
                     ({ payload := 12 }, none)]
  ∧ (get_txn_by_range stateW 10 3 true envMismatchW).2 = OpResult.panic := by
  have h1 := (claim_C9_range_pairing stateW 10 3 true envRangeW
    (TrustedStateChange.Version { version := 12 }) { version := 12, epoch := 1 }
    [{ payload := 10 }, { payload := 11 }, { payload := 12 }] none rfl).2.1 rfl
  have h2 := (claim_C9_range_pairing stateW 10 3 true envMismatchW
    (TrustedStateChange.Version { version := 5 }) { version := 5, epoch := 1 }
    [{ payload := 1 }] (some []) rfl).2.2 [] rfl (by decide)
  exact ⟨h1.1, h2⟩

/-- C10: when the verified response carries an empty `response_items` list,
each of the four read operations panics (`Vec::remove(0)` on an empty
vector) instead of returning an error value to the caller. -/
theorem claim_C10_empty_response_items_panic :
    ∀ (s : ClientState) (env : Nat → CallOutcome) (change : TrustedStateChange)
      (li : LedgerInfoWithSignatures) (a : AccountAddress) (n sv lim : Nat)
      (fe : Bool) (p : AccessPath) (asc : Bool),
    env 0 = CallOutcome.verified change
      { response_items := [], ledger_info_with_sigs := li } →
    (get_account_blob s a env).2 = OpResult.panic
  ∧ (get_txn_by_acc_seq s a n fe env).2 = OpResult.panic
  ∧ (get_txn_by_range s sv lim fe env).2 = OpResult.panic
  ∧ (get_events_by_access_path s p n asc lim env).2 = OpResult.panic := by
  intro s env change li a n sv lim fe p asc h
  have hsync := get_with_proof_sync_verified s env change _ h
  refine ⟨?_, ?_, ?_, ?_⟩
  · simp only [get_account_blob, hsync]
  · simp only [get_txn_by_acc_seq, hsync]
  · simp only [get_txn_by_range, hsync]
  · simp only [get_events_by_access_path, hsync]

theorem claim_C10_witness :
    (get_account_blob stateW { addr := 1 } envAdvanceW).2 = OpResult.panic
  ∧ (get_events_by_access_path stateW { path := 2 } 0 true 10 envAdvanceW).2
      = OpResult.panic := by
  have h := claim_C10_empty_response_items_panic stateW envAdvanceW
    (TrustedStateChange.Version { version := 5 }) { version := 5, epoch := 1 }
    { addr := 1 } 0 0 0 false { path := 2 } true rfl
  exact ⟨h.1, h.2.2.2⟩
